import Mathlib

/-!
Verification of the long-running remote job lifecycle abstraction of the
`vertexai` SDK: the tuning-job resolution logic of
`vertexai/language_models/_language_models.py`
(`_LanguageModelTuningJob.get_tuned_model`, `_TunableModelMixin._tune_model`,
`_ChatSessionBase._parse_chat_prediction_response`,
`_ChatSessionBase.send_message`), and the persistent-resource reconciler
exercised by `tests/unit/vertexai/test_persistent_resource_util.py`.

The embedding is shallow: each Python function becomes a total Lean function
over explicit data; remote calls become parameters describing the remote
service's behaviour for the call under scrutiny; raised exceptions become
`Except` errors; observable side effects (remote poll sequences, output
parameter reads, network calls, creation requests) are returned explicitly.
-/

namespace VertexAI

/-! ### Basic Python string behaviour -/

/-- ASCII whitespace characters removed by Python `str.strip()` (the strings
appearing here are ASCII resource names, so the extra Unicode whitespace
stripped by Python does not arise). -/
def isPySpace (c : Char) : Bool :=
  c == ' ' || c == '\t' || c == '\n' || c == '\r' || c == '\x0b' || c == '\x0c'

/-- Python `str.strip()`: remove leading and trailing whitespace. -/
def pyStrip (s : String) : String :=
  ⟨((s.data.dropWhile isPySpace).reverse.dropWhile isPySpace).reverse⟩

/-! ### Tuning job data model

`_LanguageModelTuningJob` wraps an `aiplatform.PipelineJob`.  The job's
recorded execution graph is `job.gca_resource.job_detail.task_details`, a list
of task details, each carrying an execution record with a schema title and a
metadata map of output parameters. -/

/-- One execution record of a pipeline task
(`task_detail.execution` in the source). -/
structure Execution where
  schema_title : String
  metadata : List (String × String)
  deriving Repr, DecidableEq

/-- One entry of `job_detail.task_details`. -/
structure TaskDetail where
  execution : Execution
  deriving Repr, DecidableEq

/-- The terminal states of `aiplatform_types.pipeline_state.PipelineState`
that matter to resolution; `job.wait()` returns only when the remote job has
reached a terminal state, so the state recorded here is the terminal state
the poll observes. -/
inductive PipelineState where
  | succeeded
  | failed
  | cancelled
  deriving Repr, DecidableEq

/-- The remote pipeline job as observed once terminal: its name, terminal
state and recorded execution graph. -/
structure PipelineJob where
  name : String
  state : PipelineState
  task_details : List TaskDetail
  deriving Repr, DecidableEq

/-- The tuned-model handle produced by resolution.  The source resolves the
extracted name through the remote model registry
(`_TunableModelMixin.get_tuned_model(tuned_model_name=...)`, an opaque RPC);
the handle references exactly the name passed to that fetch. -/
structure TunedModel where
  tuned_model_name : String
  deriving Repr, DecidableEq

/-- State of a `_LanguageModelTuningJob` handle: the wrapped job and the
`self._model` cache (`None` until the first successful resolution). -/
structure JobHandleState where
  job : PipelineJob
  model : Option TunedModel
  deriving Repr, DecidableEq

/-- Errors raised by the tuning code, named after the spec's taxonomy.
`integrityError` is the source's
`RuntimeError("Failed to get the model name from the tuning pipeline: ...")`,
`jobFailed` is the error `job.wait()` raises when the terminal state is
FAILED or CANCELLED, `validationError` is the `ValueError` raised by local
argument validation, `tuningNotSupported` the `RuntimeError` for models
without a tuning pipeline, and `keyError` a missing metadata key. -/
inductive TuningError where
  | validationError (param : String)
  | tuningNotSupported (modelId : String)
  | integrityError (jobName : String)
  | jobFailed (jobName : String)
  | keyError (key : String)
  deriving Repr, DecidableEq

/-- Observable remote effects of one `get_tuned_model` call:
`polls` counts `job.wait()` poll sequences, `metadataReads` counts reads of
output parameters from execution records. -/
structure Effects where
  polls : Nat
  metadataReads : Nat
  deriving Repr, DecidableEq

/-- Lookup in an execution's metadata map (`execution.metadata[key]`);
`none` models the `KeyError` of a missing key. -/
def metadataLookup (m : List (String × String)) (key : String) : Option String :=
  (m.find? (fun p => p.1 == key)).map Prod.snd

/-- The root pipeline tasks of a job: the task details whose execution schema
title is `"system.Run"` (the list comprehension in
`_LanguageModelTuningJob.get_tuned_model`). -/
def rootPipelineTasks (job : PipelineJob) : List TaskDetail :=
  job.task_details.filter (fun td => td.execution.schema_title == "system.Run")

/-- `_LanguageModelTuningJob.get_tuned_model`:
if `self._model` is cached, return it immediately (no remote calls);
otherwise `self._job.wait()` (one poll sequence, raising if the terminal
state is not SUCCEEDED), filter the task details for the `"system.Run"`
schema title, raise the integrity `RuntimeError` unless exactly one such root
task exists, read the root's `output:model_resource_name` output parameter,
strip it, fetch the tuned model referencing that name, cache it and return
it.  Returns the result, the updated handle state and the remote effects. -/
def getTunedModel (s : JobHandleState) :
    Except TuningError TunedModel × JobHandleState × Effects :=
  match s.model with
  | some m => (.ok m, s, ⟨0, 0⟩)
  | none =>
    match s.job.state with
    | .succeeded =>
      match rootPipelineTasks s.job with
      | [root] =>
        match metadataLookup root.execution.metadata "output:model_resource_name" with
        | none => (.error (.keyError "output:model_resource_name"), s, ⟨1, 1⟩)
        | some v =>
          (.ok ⟨pyStrip v⟩, { s with model := some ⟨pyStrip v⟩ }, ⟨1, 1⟩)
      | _ => (.error (.integrityError s.job.name), s, ⟨1, 0⟩)
    | _ => (.error (.jobFailed s.job.name), s, ⟨1, 0⟩)

/-! ### Tuning submission validation (`_TunableModelMixin._tune_model`) -/

/-- `_TUNING_LOCATIONS` of the source: the only locations where the tuning
job may run. -/
def _TUNING_LOCATIONS : List String := ["europe-west4", "us-central1"]

/-- `_TUNED_MODEL_LOCATION` of the source: the only location where the tuned
model may be deployed. -/
def _TUNED_MODEL_LOCATION : String := "us-central1"

/-- The model info fetched from the remote model garden by
`_model_garden_models._get_model_info` (a network call).
`tuning_pipeline_uri` is optional; the source treats a missing (falsy) URI
as "this model does not support tuning". -/
structure ModelInfo where
  tuning_model_id : String
  tuning_pipeline_uri : Option String
  deriving Repr, DecidableEq

/-- Python truthiness test `not model_info.tuning_pipeline_uri`:
true when the URI is `None` or the empty string. -/
def pyFalsyStrOpt : Option String → Bool
  | none => true
  | some s => s == ""

/-- Python membership test `x in locations` for an `Optional[str]` value:
`None` is a member of no string list. -/
def optMem (x : Option String) (locations : List String) : Bool :=
  match x with
  | none => false
  | some s => locations.contains s

/-- `_TunableModelMixin._tune_model`, with the remote behaviour passed in:
`model_info` is what the remote `_get_model_info` call would return, and
`launched` the pipeline job the remote submission would produce.
Validation happens first and makes no network call:
a `tuning_job_location` outside `_TUNING_LOCATIONS` or a
`tuned_model_location` different from `_TUNED_MODEL_LOCATION` raises
`ValueError` immediately.  Only after both checks pass does the source call
the network (`_get_model_info`, then `_launch_tuning_job`).  The second
component counts the remote calls issued (the model-info fetch and the
tuning-job launch). -/
def tuneModel (tuning_job_location tuned_model_location : Option String)
    (model_id : String) (model_info : ModelInfo) (launched : PipelineJob) :
    Except TuningError JobHandleState × Nat :=
  if ¬ optMem tuning_job_location _TUNING_LOCATIONS then
    (.error (.validationError "tuning_job_location"), 0)
  else if tuned_model_location ≠ some _TUNED_MODEL_LOCATION then
    (.error (.validationError "tuned_model_location"), 0)
  else if pyFalsyStrOpt model_info.tuning_pipeline_uri then
    (.error (.tuningNotSupported model_id), 1)
  else
    (.ok ⟨launched, none⟩, 2)

/-! ### Chat prediction response parsing (`_ChatSessionBase`) -/

/-- One entry of a chat prediction's `candidates` list. -/
structure ChatCandidate where
  content : String
  deriving Repr, DecidableEq

/-- One entry of the prediction's `safetyAttributes` list (for chat models
the field is a list, one entry per candidate).  All three fields may be
absent in streaming responses, hence `Option`.  The numeric safety scores
are carried opaquely as integers; no claim inspects their values. -/
structure SafetyAttributes where
  blocked : Option Bool
  categories : Option (List String)
  scores : Option (List Int)
  deriving Repr, DecidableEq

/-- One prediction dict of a chat prediction response.  `candidates := none`
models an absent `candidates` field. -/
structure ChatPrediction where
  safetyAttributes : List SafetyAttributes
  candidates : Option (List ChatCandidate)
  deriving Repr, DecidableEq

/-- The `TextGenerationResponse` fields relevant to chat parsing.  `text` is
`none` exactly when the source sets it to Python `None`. -/
structure TextGenerationResponse where
  text : Option String
  is_blocked : Bool
  safety_attributes : List (String × Int)
  deriving Repr, DecidableEq

/-- Errors raised by response parsing: an out-of-range index
(`IndexError`) or a missing mandatory key (`KeyError`). -/
inductive ParseError where
  | indexError
  | keyError (key : String)
  deriving Repr, DecidableEq

/-- Python truthiness of `prediction.get("candidates")`: an absent field and
an empty list are both falsy and indistinguishable to the source. -/
def truthyCandidates : Option (List ChatCandidate) → Option (List ChatCandidate)
  | none => none
  | some [] => none
  | some cs => some cs

/-- `_ChatSessionBase._parse_chat_prediction_response`: select the
prediction at `prediction_idx`, read `safetyAttributes[candidate_idx]`
(raising on a bad index), then build the response: `text` is the selected
candidate's content when `prediction.get("candidates")` is truthy and `None`
otherwise; `is_blocked` defaults to `False`; `safety_attributes` zips the
(possibly absent) categories and scores. -/
def parseChatPredictionResponse (predictions : List ChatPrediction)
    (prediction_idx candidate_idx : Nat) :
    Except ParseError TextGenerationResponse :=
  match predictions[prediction_idx]? with
  | none => .error .indexError
  | some prediction =>
    match prediction.safetyAttributes[candidate_idx]? with
    | none => .error .indexError
    | some sa =>
      match truthyCandidates prediction.candidates with
      | none =>
        .ok ⟨none, sa.blocked.getD false,
             List.zip (sa.categories.getD []) (sa.scores.getD [])⟩
      | some cs =>
        match cs[candidate_idx]? with
        | none => .error .indexError
        | some c =>
          .ok ⟨some c.content, sa.blocked.getD false,
               List.zip (sa.categories.getD []) (sa.scores.getD [])⟩

/-! ### Chat session history (`_ChatSessionBase.send_message`) -/

/-- `USER_AUTHOR` of `_ChatSessionBase`. -/
def USER_AUTHOR : String := "user"

/-- `MODEL_AUTHOR` of `_ChatSessionBase`. -/
def MODEL_AUTHOR : String := "bot"

/-- A `ChatMessage` history entry.  The source annotates `content` as `str`,
but the bot entry is built from `response_obj.text`, which can be Python
`None`; `Option` captures that. -/
structure ChatMessage where
  content : Option String
  author : String
  deriving Repr, DecidableEq

/-- The mutable state of a `_ChatSessionBase`: its `_message_history`. -/
structure ChatSessionState where
  message_history : List ChatMessage
  deriving Repr, DecidableEq

/-- `_ChatSessionBase.send_message`, with the remote behaviour passed in:
`remote_predictions` is the prediction list the remote
`endpoint.predict` call returns.  `_prepare_request` reads the history
without modifying it; the response is parsed with
`_parse_chat_prediction_response` at indices 0/0; on success the caller's
message (author `"user"`) and then the response text (author `"bot"`) are
appended to the history, and the response object is returned. -/
def sendMessage (s : ChatSessionState) (message : String)
    (remote_predictions : List ChatPrediction) :
    Except ParseError (TextGenerationResponse × ChatSessionState) :=
  match parseChatPredictionResponse remote_predictions 0 0 with
  | .error e => .error e
  | .ok response_obj =>
    .ok (response_obj,
      ⟨s.message_history ++
        [⟨some message, USER_AUTHOR⟩, ⟨response_obj.text, MODEL_AUTHOR⟩]⟩)

/-! ### Persistent-resource reconciler

The implementation module (`vertexai.preview._workflow.executor.
persistent_resource_util`) is not part of the sources here; only its unit
tests (`tests/unit/vertexai/test_persistent_resource_util.py`) are.  The
reconciler is therefore modelled from the spec (its §4.2 `ensure`
contract), with the concrete default pool shape taken from the test fixture
`_TEST_REQUEST_RUNNING_DEFAULT`. -/

/-- States of a persistent resource. -/
inductive ResourceState where
  | provisioning
  | running
  | error
  | stopping
  | stopped
  deriving Repr, DecidableEq

/-- One machine pool spec of a persistent resource. -/
structure ResourcePool where
  machine_type : String
  replica_count : Nat
  boot_disk_type : String
  boot_disk_size_gb : Nat
  deriving Repr, DecidableEq

/-- The existing remote resource as returned by a successful lookup. -/
structure PersistentResource where
  state : ResourceState
  resource_pools : List ResourcePool
  deriving Repr, DecidableEq

/-- The fixed default pool shape (test fixture
`_TEST_REQUEST_RUNNING_DEFAULT`): one replica of `n1-standard-4` with a
100 GB `pd-ssd` boot disk. -/
def defaultResourcePool : ResourcePool :=
  ⟨"n1-standard-4", 1, "pd-ssd", 100⟩

/-- Errors of the remote cluster-management transport: the distinguishable
not-found condition, or any other transport error. -/
inductive RemoteError where
  | notFound
  | other (msg : String)
  deriving Repr, DecidableEq

/-- The remote service's behaviour for one reconciliation call: what the
lookup (`get_persistent_resource`) returns, and whether a creation call
(`create_persistent_resource`) would succeed (`.error cause` carries the
underlying failure). -/
structure RemoteBackend where
  lookup : Except RemoteError PersistentResource
  create : Except String Unit
  deriving Repr

/-- Errors of the reconciler, named after the spec's taxonomy.
`preconditionError` — the named resource exists but is unusable, a different
name must be chosen; `provisioningError` — creation failed, wrapping the
underlying cause; `remote e` — the lookup error `e` propagating to the
caller unchanged (no reclassification, no wrapping). -/
inductive EnsureError where
  | preconditionError (name : String)
  | provisioningError (cause : String)
  | remote (e : RemoteError)
  deriving Repr, DecidableEq

/-- One creation request issued to the remote service: the resource name and
the requested pool shapes. -/
structure CreationCall where
  name : String
  resource_pools : List ResourcePool
  deriving Repr, DecidableEq

/-- Modelled from the spec: the `ensure(name)` reconciliation contract of the
`persistent_resource_util` module, whose implementation is absent from the
sources (only its unit tests are present).  Per spec §4.2: look up the
resource; if found RUNNING, succeed with no creation; if found in any other
state, raise `PreconditionError` with no creation; if the lookup raises the
not-found condition, issue exactly one creation call with the fixed default
shape, succeeding on success and raising `ProvisioningError` wrapping the
underlying cause on failure; any other lookup error propagates unchanged
with no creation call.  The second component lists the creation calls
issued. -/
def ensure (name : String) (backend : RemoteBackend) :
    Except EnsureError Unit × List CreationCall :=
  match backend.lookup with
  | .ok r =>
    if r.state = ResourceState.running then (.ok (), [])
    else (.error (.preconditionError name), [])
  | .error .notFound =>
    match backend.create with
    | .ok _ => (.ok (), [⟨name, [defaultResourcePool]⟩])
    | .error cause => (.error (.provisioningError cause), [⟨name, [defaultResourcePool]⟩])
  | .error (.other msg) => (.error (.remote (.other msg)), [])

/-! ### Claims about the tuning-job resolution -/

/-- Claim C1: for every completed tuning job (terminal state SUCCEEDED) with
no cached result, if the recorded execution graph contains a number of root
execution records (schema title `"system.Run"`) different from exactly one,
then `get_tuned_model` raises the integrity error and reads no output
parameter of any record. -/
theorem getTunedModel_integrityError (s : JobHandleState)
    (hcache : s.model = none)
    (hstate : s.job.state = PipelineState.succeeded)
    (hroot : (rootPipelineTasks s.job).length ≠ 1) :
    (getTunedModel s).1 = .error (.integrityError s.job.name) ∧
    (getTunedModel s).2.2.metadataReads = 0 := by
  rcases h : rootPipelineTasks s.job with _ | ⟨a, _ | ⟨b, l⟩⟩
  · unfold getTunedModel
    rw [hcache, hstate, h]
    exact ⟨rfl, rfl⟩
  · exact absurd (by simp [h] ) hroot
  · unfold getTunedModel
    rw [hcache, hstate, h]
    exact ⟨rfl, rfl⟩

/-- Witness for C1 at a concrete job with zero root records. -/
theorem getTunedModel_integrityError_witness :
    (getTunedModel ⟨⟨"j", .succeeded, []⟩, none⟩).1 =
      .error (.integrityError "j") ∧
    (getTunedModel ⟨⟨"j", .succeeded, []⟩, none⟩).2.2.metadataReads = 0 :=
  getTunedModel_integrityError ⟨⟨"j", .succeeded, []⟩, none⟩ rfl rfl (by decide)

/-- Claim C2, counterexample: a completed job with exactly one root record
whose `model_resource_name` output parameter is
`" projects/p/models/m"` (note the leading space).  The source strips the
value (`.strip()`), so the returned handle references
`"projects/p/models/m"`, which is not the recorded parameter value — the
claim that the handle references exactly the recorded value fails here. -/
theorem getTunedModel_strip_counterexample :
    (getTunedModel ⟨⟨"j", .succeeded,
        [⟨⟨"system.Run",
          [("output:model_resource_name", " projects/p/models/m")]⟩⟩]⟩,
      none⟩).1 = .ok ⟨"projects/p/models/m"⟩ ∧
    ("projects/p/models/m" : String) ≠ " projects/p/models/m" :=
  ⟨rfl, by decide⟩

/-- Claim C2 as amended: for every completed tuning job with no cached
result whose graph contains exactly one root record carrying the
`model_resource_name` output parameter `N`, `get_tuned_model` returns a
handle referencing `N` stripped of leading/trailing whitespace; in
particular, whenever `N` carries no surrounding whitespace (as in
`N = "projects/p/models/m"`), the handle references exactly `N`. -/
theorem getTunedModel_returns_stripped_name (s : JobHandleState)
    (root : TaskDetail) (N : String)
    (hcache : s.model = none)
    (hstate : s.job.state = PipelineState.succeeded)
    (hroot : rootPipelineTasks s.job = [root])
    (hparam : metadataLookup root.execution.metadata
        "output:model_resource_name" = some N) :
    (getTunedModel s).1 = .ok ⟨pyStrip N⟩ ∧
    (pyStrip N = N → (getTunedModel s).1 = .ok ⟨N⟩) := by
  have h1 : (getTunedModel s).1 = .ok ⟨pyStrip N⟩ := by
    simp [getTunedModel, hcache, hstate, hroot, hparam]
  exact ⟨h1, fun ht => by rw [h1, ht]⟩

/-- Witness for the amended C2 at a concrete job whose recorded name has no
surrounding whitespace. -/
theorem getTunedModel_returns_stripped_name_witness :
    (getTunedModel ⟨⟨"j2", .succeeded,
        [⟨⟨"system.Run",
          [("output:model_resource_name", "projects/p/models/m")]⟩⟩]⟩,
      none⟩).1 = .ok ⟨"projects/p/models/m"⟩ :=
  (getTunedModel_returns_stripped_name
      ⟨⟨"j2", .succeeded,
        [⟨⟨"system.Run",
          [("output:model_resource_name", "projects/p/models/m")]⟩⟩]⟩, none⟩
      ⟨⟨"system.Run", [("output:model_resource_name", "projects/p/models/m")]⟩⟩
      "projects/p/models/m" rfl rfl (by decide) rfl).2 (by decide)

/-- Claim C3: once resolution has completed successfully (from an unresolved
handle), calling `get_tuned_model` again returns the same cached model with
the state unchanged and performs no remote poll at all, while the first call
performed exactly one poll sequence — so across both calls exactly one
remote poll sequence occurs. -/
theorem getTunedModel_idempotent (s s' : JobHandleState) (m : TunedModel)
    (e : Effects)
    (hcache : s.model = none)
    (h : getTunedModel s = (.ok m, s', e)) :
    getTunedModel s' = (.ok m, s', ⟨0, 0⟩) ∧ e.polls = 1 := by
  unfold getTunedModel at h
  rw [hcache] at h
  dsimp only at h
  split at h
  · split at h
    · split at h
      · simp at h
      · simp only [Prod.mk.injEq, Except.ok.injEq] at h
        obtain ⟨h1, h2, h3⟩ := h
        subst h1
        subst h2
        subst h3
        exact ⟨rfl, rfl⟩
    · simp at h
  · simp at h

/-- Witness for C3: the state reached after a successful first resolution of
a concrete job resolves again to the same model with zero polls, the first
call having polled once. -/
theorem getTunedModel_idempotent_witness :
    getTunedModel ⟨⟨"j3", .succeeded,
        [⟨⟨"system.Run",
          [("output:model_resource_name", "projects/p/models/m3")]⟩⟩]⟩,
      some ⟨"projects/p/models/m3"⟩⟩ =
      (.ok ⟨"projects/p/models/m3"⟩,
       ⟨⟨"j3", .succeeded,
          [⟨⟨"system.Run",
            [("output:model_resource_name", "projects/p/models/m3")]⟩⟩]⟩,
        some ⟨"projects/p/models/m3"⟩⟩, ⟨0, 0⟩) ∧
    (⟨1, 1⟩ : Effects).polls = 1 :=
  getTunedModel_idempotent
    ⟨⟨"j3", .succeeded,
      [⟨⟨"system.Run",
        [("output:model_resource_name", "projects/p/models/m3")]⟩⟩]⟩, none⟩
    _ _ _ rfl rfl

/-- Claim C4: for every tuning submission whose `tuning_job_location` is
outside the two allowed regions or whose `tuned_model_location` differs from
the single allowed region, `_tune_model` fails with the validation
`ValueError` and zero remote calls are made. -/
theorem tuneModel_location_validation (tjl tml : Option String)
    (model_id : String) (mi : ModelInfo) (j : PipelineJob)
    (h : optMem tjl _TUNING_LOCATIONS = false ∨
         tml ≠ some _TUNED_MODEL_LOCATION) :
    (∃ p, (tuneModel tjl tml model_id mi j).1 = .error (.validationError p)) ∧
    (tuneModel tjl tml model_id mi j).2 = 0 := by
  rcases h with h | h
  · refine ⟨⟨"tuning_job_location", ?_⟩, ?_⟩ <;> simp [tuneModel, h]
  · by_cases h2 : optMem tjl _TUNING_LOCATIONS
    · refine ⟨⟨"tuned_model_location", ?_⟩, ?_⟩ <;> simp [tuneModel, h, h2]
    · refine ⟨⟨"tuning_job_location", ?_⟩, ?_⟩ <;> simp [tuneModel, h2]

/-- Witness for C4 at a concrete unsupported tuning job location. -/
theorem tuneModel_location_validation_witness :
    (∃ p, (tuneModel (some "asia-east1") (some "us-central1")
        "text-bison@001" ⟨"text-bison-001", some "gs://tuning"⟩
        ⟨"j4", .succeeded, []⟩).1 = .error (.validationError p)) ∧
    (tuneModel (some "asia-east1") (some "us-central1")
        "text-bison@001" ⟨"text-bison-001", some "gs://tuning"⟩
        ⟨"j4", .succeeded, []⟩).2 = 0 :=
  tuneModel_location_validation (some "asia-east1") (some "us-central1")
    "text-bison@001" ⟨"text-bison-001", some "gs://tuning"⟩
    ⟨"j4", .succeeded, []⟩ (Or.inl (by decide))

/-! ### Claims about chat response parsing and chat history -/

/-- Claim C9: for every chat prediction response whose selected prediction
carries an absent or empty `candidates` field (and a well-formed
`safetyAttributes` entry at the candidate index), the parser returns a
response whose `text` is `None`, raising no error; the absent and the empty
case produce the very same value, so the two are not distinguished. -/
theorem parseChat_absent_candidates_text_none (preds : List ChatPrediction)
    (pidx cidx : Nat) (p : ChatPrediction) (sa : SafetyAttributes)
    (hp : preds[pidx]? = some p)
    (hsa : p.safetyAttributes[cidx]? = some sa)
    (hc : p.candidates = none ∨ p.candidates = some []) :
    parseChatPredictionResponse preds pidx cidx =
      .ok ⟨none, sa.blocked.getD false,
           List.zip (sa.categories.getD []) (sa.scores.getD [])⟩ := by
  have htc : truthyCandidates p.candidates = none := by
    rcases hc with hc | hc <;> simp [hc, truthyCandidates]
  simp [parseChatPredictionResponse, hp, hsa, htc]

/-- Witness for C9 at a concrete prediction with an absent `candidates`
field. -/
theorem parseChat_absent_candidates_text_none_witness :
    parseChatPredictionResponse
        [⟨[⟨some true, some ["Violent"], some [2]⟩], none⟩] 0 0 =
      .ok ⟨none, true, [("Violent", 2)]⟩ :=
  parseChat_absent_candidates_text_none
    [⟨[⟨some true, some ["Violent"], some [2]⟩], none⟩] 0 0
    ⟨[⟨some true, some ["Violent"], some [2]⟩], none⟩
    ⟨some true, some ["Violent"], some [2]⟩ rfl rfl (Or.inl rfl)

/-- Claim C10: every successful `send_message` call leaves the history equal
to the old history with exactly two entries appended — the caller's message
with author `"user"` first, then the response text with author `"bot"` —
and every entry present before the call is unchanged at its position. -/
theorem sendMessage_history_append_only (s : ChatSessionState) (msg : String)
    (preds : List ChatPrediction) (r : TextGenerationResponse)
    (s' : ChatSessionState)
    (h : sendMessage s msg preds = .ok (r, s')) :
    s'.message_history =
      s.message_history ++
        [⟨some msg, USER_AUTHOR⟩, ⟨r.text, MODEL_AUTHOR⟩] ∧
    ∀ i, i < s.message_history.length →
      s'.message_history[i]? = s.message_history[i]? := by
  unfold sendMessage at h
  split at h
  · simp at h
  · simp only [Except.ok.injEq, Prod.mk.injEq] at h
    obtain ⟨h1, h2⟩ := h
    subst h1
    subst h2
    refine ⟨rfl, fun i hi => ?_⟩
    exact List.getElem?_append_left hi

/-- Witness for C10 at a concrete session with two prior entries. -/
theorem sendMessage_history_append_only_witness :
    (⟨[⟨some "hello", "user"⟩, ⟨some "hi", "bot"⟩,
       ⟨some "next", "user"⟩, ⟨some "resp", "bot"⟩]⟩ :
      ChatSessionState).message_history =
      (⟨[⟨some "hello", "user"⟩, ⟨some "hi", "bot"⟩]⟩ :
        ChatSessionState).message_history ++
        [⟨some "next", USER_AUTHOR⟩,
         ⟨(⟨some "resp", false, []⟩ : TextGenerationResponse).text,
          MODEL_AUTHOR⟩] ∧
    ∀ i, i < (⟨[⟨some "hello", "user"⟩, ⟨some "hi", "bot"⟩]⟩ :
        ChatSessionState).message_history.length →
      ((⟨[⟨some "hello", "user"⟩, ⟨some "hi", "bot"⟩,
          ⟨some "next", "user"⟩, ⟨some "resp", "bot"⟩]⟩ :
        ChatSessionState).message_history)[i]? =
        ((⟨[⟨some "hello", "user"⟩, ⟨some "hi", "bot"⟩]⟩ :
          ChatSessionState).message_history)[i]? :=
  sendMessage_history_append_only
    ⟨[⟨some "hello", "user"⟩, ⟨some "hi", "bot"⟩]⟩ "next"
    [⟨[⟨none, none, none⟩], some [⟨"resp"⟩]⟩]
    ⟨some "resp", false, []⟩
    ⟨[⟨some "hello", "user"⟩, ⟨some "hi", "bot"⟩,
      ⟨some "next", "user"⟩, ⟨some "resp", "bot"⟩]⟩ (by rfl)

/-! ### Claims about the persistent-resource reconciler (spec-modelled) -/

/-- Claim C5: for every reconciliation where the lookup returns an existing
resource whose state is not RUNNING (in particular ERROR), `ensure` raises
the precondition error naming the resource and issues no creation call. -/
theorem ensure_not_running_precondition (name : String) (b : RemoteBackend)
    (r : PersistentResource)
    (hl : b.lookup = .ok r) (hs : r.state ≠ ResourceState.running) :
    (ensure name b).1 = .error (.preconditionError name) ∧
    (ensure name b).2 = [] := by
  simp [ensure, hl, hs]

/-- Witness for C5 at a concrete backend reporting an ERROR-state resource. -/
theorem ensure_not_running_precondition_witness :
    (ensure "test-cluster" ⟨.ok ⟨.error, []⟩, .ok ()⟩).1 =
      .error (.preconditionError "test-cluster") ∧
    (ensure "test-cluster" ⟨.ok ⟨.error, []⟩, .ok ()⟩).2 = [] :=
  ensure_not_running_precondition "test-cluster"
    ⟨.ok ⟨.error, []⟩, .ok ()⟩ ⟨.error, []⟩ rfl (by decide)

/-- Claim C6: for every reconciliation where the lookup raises the not-found
condition, exactly one creation call is issued, and it requests the fixed
default shape: a single pool of one `n1-standard-4` replica with a 100 GB
`pd-ssd` boot disk. -/
theorem ensure_notFound_creates_default (name : String) (b : RemoteBackend)
    (hl : b.lookup = .error RemoteError.notFound) :
    (ensure name b).2 = [⟨name, [⟨"n1-standard-4", 1, "pd-ssd", 100⟩]⟩] := by
  cases hc : b.create <;> simp [ensure, hl, hc, defaultResourcePool]

/-- Witness for C6 at a concrete backend raising not-found. -/
theorem ensure_notFound_creates_default_witness :
    (ensure "test-cluster" ⟨.error .notFound, .ok ()⟩).2 =
      [⟨"test-cluster", [⟨"n1-standard-4", 1, "pd-ssd", 100⟩]⟩] :=
  ensure_notFound_creates_default "test-cluster" ⟨.error .notFound, .ok ()⟩ rfl

/-- Claim C7: for every creation attempt during which the remote creation
call fails with some cause, `ensure` raises the provisioning error wrapping
exactly that cause — the underlying error is never swallowed. -/
theorem ensure_creation_failure_wraps_cause (name : String)
    (b : RemoteBackend) (cause : String)
    (hl : b.lookup = .error RemoteError.notFound)
    (hc : b.create = .error cause) :
    (ensure name b).1 = .error (.provisioningError cause) := by
  simp [ensure, hl, hc]

/-- Witness for C7 at a concrete backend whose creation call fails. -/
theorem ensure_creation_failure_wraps_cause_witness :
    (ensure "test-cluster" ⟨.error .notFound, .error "quota exceeded"⟩).1 =
      .error (.provisioningError "quota exceeded") :=
  ensure_creation_failure_wraps_cause "test-cluster"
    ⟨.error .notFound, .error "quota exceeded"⟩ "quota exceeded" rfl rfl

/-- Claim C8: for every reconciliation where the lookup fails with an error
other than the not-found condition, that very error propagates to the
caller unchanged and no creation call is made. -/
theorem ensure_other_lookup_error_propagates (name : String)
    (b : RemoteBackend) (msg : String)
    (hl : b.lookup = .error (.other msg)) :
    (ensure name b).1 = .error (.remote (.other msg)) ∧
    (ensure name b).2 = [] := by
  simp [ensure, hl]

/-- Witness for C8 at a concrete backend whose lookup fails with a
non-not-found error. -/
theorem ensure_other_lookup_error_propagates_witness :
    (ensure "test-cluster"
        ⟨.error (.other "unauthorized"), .ok ()⟩).1 =
      .error (.remote (.other "unauthorized")) ∧
    (ensure "test-cluster"
        ⟨.error (.other "unauthorized"), .ok ()⟩).2 = [] :=
  ensure_other_lookup_error_propagates "test-cluster"
    ⟨.error (.other "unauthorized"), .ok ()⟩ "unauthorized" rfl

end VertexAI
